import Mathlib

/-! Verification of the forward-mode automatic-differentiation engine in
`src/forward.rs` of the `ad` crate.  The crate defines `struct Dual<R: Real>`
with fields `real` and `grad` and implements arithmetic operators, their
assign variants, `pow`, and a library of elementary functions on it.  Here
the generic carrier `R` is instantiated at the idealized real numbers `ℝ`;
every definition below transcribes the corresponding Rust item literally.

Two functions come from the crate's dependency `num_traits` (trait
`num_traits::real::Real`, implemented for IEEE floats) rather than from the
repository itself and are modelled after that trait's documented contract:
`signum` returns `1.0` for a positive number or `+0.0` and `-1.0` for a
negative number or `-0.0` (the idealized carrier has a single zero, the
positive one), and `atanh` is the inverse hyperbolic tangent. -/

noncomputable section

/-- Models `num_traits::real::Real::signum` (for floats, `f64::signum`):
`1.0` if the number is positive or `+0.0`, `-1.0` if it is negative or
`-0.0`.  On the idealized carrier the single zero plays the role of `+0.0`,
so `signum 0 = 1`. -/
def signum (x : ℝ) : ℝ := if x < 0 then -1 else 1

/-- Models `num_traits::real::Real::atanh` (for floats, `f64::atanh`), the
inverse hyperbolic tangent, which Mathlib does not provide directly. -/
def artanh (x : ℝ) : ℝ := Real.log ((1 + x) / (1 - x)) / 2

/-- `struct Dual<R: Real> { pub real: R, pub grad: R }`, instantiated at
`ℝ`.  The accessors `real()` and `grad()` are the field projections. -/
structure Dual where
  real : ℝ
  grad : ℝ

theorem Dual.ext {a b : Dual} (h1 : a.real = b.real) (h2 : a.grad = b.grad) :
    a = b := by
  cases a
  cases b
  cases h1
  cases h2
  rfl

/-- `impl ops::Add for Dual<R>`. -/
instance : Add Dual :=
  ⟨fun s other => ⟨s.real + other.real, s.grad + other.grad⟩⟩

/-- `impl ops::Sub for Dual<R>`. -/
instance : Sub Dual :=
  ⟨fun s other => ⟨s.real - other.real, s.grad - other.grad⟩⟩

/-- `impl ops::Mul for Dual<R>`:
`real: self.real * other.real, grad: self.real * other.grad + self.grad * other.real`. -/
instance : Mul Dual :=
  ⟨fun s other => ⟨s.real * other.real, s.real * other.grad + s.grad * other.real⟩⟩

/-- `impl ops::Div for Dual<R>`:
`real: self.real / other.real, grad: self.real / other.grad + self.grad / other.real`. -/
instance : Div Dual :=
  ⟨fun s other => ⟨s.real / other.real, s.real / other.grad + s.grad / other.real⟩⟩

/-- `impl ops::Neg for Dual<R>`:
`Dual { real: -self.grad, grad: -self.real }`. -/
instance : Neg Dual :=
  ⟨fun s => ⟨-s.grad, -s.real⟩⟩

theorem Dual.add_def (a b : Dual) :
    a + b = ⟨a.real + b.real, a.grad + b.grad⟩ := rfl

theorem Dual.sub_def (a b : Dual) :
    a - b = ⟨a.real - b.real, a.grad - b.grad⟩ := rfl

theorem Dual.mul_def (a b : Dual) :
    a * b = ⟨a.real * b.real, a.real * b.grad + a.grad * b.real⟩ := rfl

theorem Dual.div_def (a b : Dual) :
    a / b = ⟨a.real / b.real, a.real / b.grad + a.grad / b.real⟩ := rfl

/-- `fn add_assign(&mut self, other: Self)`: the value stored back into the
receiver, written in state-passing style. -/
def Dual.addAssign (s other : Dual) : Dual :=
  ⟨s.real + other.real, s.grad + other.grad⟩

/-- `fn sub_assign(&mut self, other: Self)`. -/
def Dual.subAssign (s other : Dual) : Dual :=
  ⟨s.real - other.real, s.grad - other.grad⟩

/-- `fn mul_assign(&mut self, other: Self)`. -/
def Dual.mulAssign (s other : Dual) : Dual :=
  ⟨s.real * other.real, s.real * other.grad + s.grad * other.real⟩

/-- `fn div_assign(&mut self, other: Self)`. -/
def Dual.divAssign (s other : Dual) : Dual :=
  ⟨s.real / other.real, s.real / other.grad + s.grad / other.real⟩

/-- `fn abs(self)`:
`Dual { real: self.real.abs(), grad: self.grad.abs() * self.real.signum() }`. -/
def Dual.abs (a : Dual) : Dual :=
  ⟨|a.real|, |a.grad| * signum a.real⟩

/-- The `for _ in 1..n` loop body of `fn pow`: each iteration performs
`result *= result.clone()`; `powLoop r k` runs that body `k` times starting
from `r`. -/
def Dual.powLoop (r : Dual) : Nat → Dual
  | 0 => r
  | k + 1 => Dual.powLoop (r * r) k

/-- `fn pow(self, n: usize)`: returns `self` when `n == 1`, otherwise runs
`result *= result.clone()` for each step of `1..n` (that is, `n - 1` times)
starting from `result = self`. -/
def Dual.pow (d : Dual) (n : Nat) : Dual :=
  if n = 1 then d else Dual.powLoop d (n - 1)

/-- `fn exp(self)`. -/
def Dual.exp (a : Dual) : Dual :=
  ⟨Real.exp a.real, a.grad * Real.exp a.real⟩

/-- `fn ln(self)`. -/
def Dual.ln (a : Dual) : Dual :=
  ⟨Real.log a.real, a.grad / a.real⟩

/-- `fn sin(self)`. -/
def Dual.sin (a : Dual) : Dual :=
  ⟨Real.sin a.real, a.grad * Real.cos a.real⟩

/-- `fn cos(self)`. -/
def Dual.cos (a : Dual) : Dual :=
  ⟨Real.cos a.real, -a.grad * Real.sin a.real⟩

/-- `fn tan(self)`. -/
def Dual.tan (a : Dual) : Dual :=
  ⟨Real.tan a.real, a.grad / (Real.cos a.real * Real.cos a.real)⟩

/-- `fn asin(self)`:
`grad: self.grad / (self.real.signum().abs() - self.real * self.real).sqrt()`. -/
def Dual.asin (a : Dual) : Dual :=
  ⟨Real.arcsin a.real, a.grad / Real.sqrt (|signum a.real| - a.real * a.real)⟩

/-- `fn acos(self)`. -/
def Dual.acos (a : Dual) : Dual :=
  ⟨Real.arccos a.real, -a.grad / Real.sqrt (|signum a.real| - a.real * a.real)⟩

/-- `fn atan(self)`. -/
def Dual.atan (a : Dual) : Dual :=
  ⟨Real.arctan a.real, a.grad / (|signum a.real| + a.real * a.real)⟩

/-- `fn sinh(self)`. -/
def Dual.sinh (a : Dual) : Dual :=
  ⟨Real.sinh a.real, a.grad * Real.cosh a.real⟩

/-- `fn cosh(self)`. -/
def Dual.cosh (a : Dual) : Dual :=
  ⟨Real.cosh a.real, a.grad * Real.sinh a.real⟩

/-- `fn tanh(self)`. -/
def Dual.tanh (a : Dual) : Dual :=
  ⟨Real.tanh a.real,
   a.grad * (Real.exp a.real - Real.exp (-a.real)) / (Real.exp a.real + Real.exp (-a.real))⟩

/-- `fn asinh(self)`. -/
def Dual.asinh (a : Dual) : Dual :=
  ⟨Real.arsinh a.real, a.grad / Real.sqrt (|signum a.real| + a.real * a.real)⟩

/-- `fn acosh(self)`: note the real part is `self.real.acos()`, the
arc-cosine, exactly as in the source. -/
def Dual.acosh (a : Dual) : Dual :=
  ⟨Real.arccos a.real, a.grad / Real.sqrt (-|signum a.real| + a.real * a.real)⟩

/-- `fn atanh(self)`. -/
def Dual.atanh (a : Dual) : Dual :=
  ⟨artanh a.real, a.grad / (|signum a.real| - a.real * a.real)⟩

/-- The power operation the spec describes for `pow`: the `n`-fold product
of `d` with itself under the dual multiplication rule, applied iteratively
(with the empty product as base). -/
def specPow (d : Dual) : Nat → Dual
  | 0 => ⟨1, 0⟩
  | n + 1 => specPow d n * d

theorem specPow_succ (d : Dual) (n : Nat) :
    specPow d (n + 1) = specPow d n * d := rfl

theorem specPow_one (d : Dual) : specPow d 1 = d := by
  show (⟨1, 0⟩ : Dual) * d = d
  simp [Dual.mul_def]

theorem dual_mul_assoc (a b c : Dual) : a * b * c = a * (b * c) := by
  simp only [Dual.mul_def, Dual.mk.injEq]
  constructor <;> ring

theorem specPow_double (d : Dual) (m : Nat) :
    specPow (d * d) m = specPow d (2 * m) := by
  induction m with
  | zero => rfl
  | succ m ih =>
    have h2 : 2 * (m + 1) = 2 * m + 1 + 1 := by omega
    rw [h2, specPow_succ, specPow_succ, specPow_succ, ih, dual_mul_assoc]

theorem powLoop_spec (k : Nat) : ∀ r : Dual, Dual.powLoop r k = specPow r (2 ^ k) := by
  induction k with
  | zero => intro r; exact (specPow_one r).symm
  | succ k ih =>
    intro r
    have h2 : 2 ^ (k + 1) = 2 * 2 ^ k := by rw [pow_succ, Nat.mul_comm]
    show Dual.powLoop (r * r) k = specPow r (2 ^ (k + 1))
    rw [ih (r * r), specPow_double, h2]

/-- C1: for every pair of duals `a` and `b`, division returns the `Dual`
with real part `a.real / b.real` and grad part `a.grad/b.real + a.real/b.grad`
(the non-standard formula the spec documents), and this does not coincide
with the standard quotient rule `(a.grad*b.real - a.real*b.grad) / b.real^2`
in general. -/
theorem C1_div_formula :
    (∀ a b : Dual, a / b = ⟨a.real / b.real, a.grad / b.real + a.real / b.grad⟩) ∧
    ¬ (∀ a b : Dual,
        (a / b).grad = (a.grad * b.real - a.real * b.grad) / (b.real ^ 2)) := by
  constructor
  · intro a b
    rw [Dual.div_def]
    exact Dual.ext rfl (add_comm _ _)
  · intro h
    have h2 := h ⟨1, 1⟩ ⟨1, 2⟩
    rw [Dual.div_def] at h2
    norm_num at h2

/-- C2: for every dual `a`, negation returns `⟨-a.grad, -a.real⟩`, negating
and swapping the two fields. -/
theorem C2_neg_swaps (a : Dual) : -a = ⟨-a.grad, -a.real⟩ := rfl

/-- C8: for every real `x`, with the seed `d = ⟨x, 1⟩`, the grad part of
`d * d + d.sin()` is exactly `2 * x + cos x`. -/
theorem C8_square_plus_sine_grad (x : ℝ) :
    (((⟨x, 1⟩ : Dual) * ⟨x, 1⟩) + Dual.sin ⟨x, 1⟩).grad = 2 * x + Real.cos x := by
  show (x * 1 + 1 * x) + 1 * Real.cos x = 2 * x + Real.cos x
  ring

/-- C9: for every pair of duals, each in-place assign variant leaves the
receiver equal to the result of the corresponding pure binary operator. -/
theorem C9_assign_variants (a b : Dual) :
    Dual.addAssign a b = a + b ∧ Dual.subAssign a b = a - b ∧
    Dual.mulAssign a b = a * b ∧ Dual.divAssign a b = a / b :=
  ⟨rfl, rfl, rfl, rfl⟩

/-- C10: for every dual `d`, `pow d 0` returns `d` unchanged (the loop body
never executes), not the constant dual `⟨1, 0⟩`. -/
theorem C10_pow_zero :
    (∀ d : Dual, Dual.pow d 0 = d) ∧ Dual.pow ⟨2, 3⟩ 0 ≠ (⟨1, 0⟩ : Dual) := by
  constructor
  · intro d
    rfl
  · intro h
    have h3 : Dual.pow ⟨2, 3⟩ 0 = (⟨2, 3⟩ : Dual) := rfl
    rw [h3] at h
    have h2 := congrArg Dual.real h
    norm_num at h2

/-- C3 counterexample: at `d = ⟨2, 1⟩` and `n = 3`, `pow d 3` is not the
three-fold product `d * d * d`: the loop squares its accumulator, so the
result is `d^4 = ⟨16, 32⟩` while `d^3 = ⟨8, 12⟩`. -/
theorem C3_pow_counterexample : Dual.pow ⟨2, 1⟩ 3 ≠ specPow ⟨2, 1⟩ 3 := by
  have h1 : Dual.pow ⟨2, 1⟩ 3 =
      ((⟨2, 1⟩ : Dual) * ⟨2, 1⟩) * ((⟨2, 1⟩ : Dual) * ⟨2, 1⟩) := rfl
  have h2 : specPow ⟨2, 1⟩ 3 =
      (((⟨1, 0⟩ : Dual) * ⟨2, 1⟩) * ⟨2, 1⟩) * ⟨2, 1⟩ := rfl
  intro h
  rw [h1, h2] at h
  simp only [Dual.mul_def, Dual.mk.injEq] at h
  norm_num at h

/-- C3 (amended): for every dual `d` and every `n ≥ 1`, `pow d n` equals
`d ^ (2 ^ (n - 1))`: the loop body `result *= result.clone()` squares the
accumulator `n - 1` times, so the result is the `2^(n-1)`-fold product of
`d`, which agrees with `d^n` only for `n = 1` and `n = 2`. -/
theorem C3_pow_squares (d : Dual) (n : Nat) (h : 1 ≤ n) :
    Dual.pow d n = specPow d (2 ^ (n - 1)) := by
  by_cases h1 : n = 1
  · subst h1
    show d = specPow d (2 ^ 0)
    rw [pow_zero, specPow_one]
  · show (if n = 1 then d else Dual.powLoop d (n - 1)) = specPow d (2 ^ (n - 1))
    rw [if_neg h1, powLoop_spec]

theorem C3_pow_squares_witness :
    1 ≤ 3 ∧ Dual.pow ⟨2, 1⟩ 3 = specPow ⟨2, 1⟩ (2 ^ (3 - 1)) :=
  ⟨by decide, C3_pow_squares ⟨2, 1⟩ 3 (by decide)⟩

/-- C4 counterexample: at `a = ⟨1, -1⟩` the grad part of `abs a` is not
`a.grad * signum a.real = -1`: the implementation first takes the absolute
value of the grad field, producing `|-1| * signum 1 = 1`. -/
theorem C4_abs_counterexample :
    Dual.abs ⟨1, -1⟩ ≠ ⟨|(1 : ℝ)|, (-1 : ℝ) * signum 1⟩ := by
  intro h
  simp only [Dual.abs, signum, Dual.mk.injEq] at h
  norm_num at h

/-- C4 (amended): for every dual `a`, `abs a` has real part `|a.real|` and
grad part `|a.grad| * signum a.real` — the absolute value of the grad field
times the sign of the real field, not the plain chain-rule product. -/
theorem C4_abs_formula (a : Dual) :
    Dual.abs a = ⟨|a.real|, |a.grad| * signum a.real⟩ := rfl

/-- Auxiliary: the constant `self.real.signum().abs()` appearing in the
inverse-function derivative formulas is `1` for every real input, because
`signum` never returns `0` (it is `1` at `+0.0`). -/
theorem abs_signum_eq_one (x : ℝ) : |signum x| = 1 := by
  unfold signum
  split <;> norm_num

/-- C5: for every dual `a` with `a.real ≠ 0`, `acosh a` has real part
`arccos a.real` (the arc-cosine, not the inverse hyperbolic cosine) and
grad part `a.grad / sqrt (a.real ^ 2 - 1)`. -/
theorem C5_acosh_uses_arccos (a : Dual) (h : a.real ≠ 0) :
    Dual.acosh a = ⟨Real.arccos a.real, a.grad / Real.sqrt (a.real ^ 2 - 1)⟩ := by
  unfold Dual.acosh
  rw [abs_signum_eq_one]
  exact Dual.ext rfl (by ring_nf)

theorem C5_acosh_uses_arccos_witness :
    (⟨1, 3⟩ : Dual).real ≠ 0 ∧
    Dual.acosh ⟨1, 3⟩ = ⟨Real.arccos 1, 3 / Real.sqrt ((1 : ℝ) ^ 2 - 1)⟩ :=
  ⟨one_ne_zero, C5_acosh_uses_arccos ⟨1, 3⟩ one_ne_zero⟩

/-- C6 counterexample: at the dual `⟨0, 1⟩` the constant
`signum(a.real).abs()` evaluates to `1`, not `0` (float `signum` returns
`1.0` at `+0.0`), and accordingly `asin ⟨0, 1⟩` has grad part `1`. -/
theorem C6_signum_zero_counterexample :
    |signum ((⟨0, 1⟩ : Dual).real)| ≠ 0 ∧
    Dual.asin ⟨0, 1⟩ = ⟨Real.arcsin 0, 1⟩ := by
  constructor
  · rw [abs_signum_eq_one]
    norm_num
  · unfold Dual.asin
    rw [abs_signum_eq_one]
    refine Dual.ext rfl ?_
    norm_num [Real.sqrt_one]

/-- C6 (amended): for every dual `a` with `a.real = 0`, the constant
`signum(a.real).abs()` evaluates to `1` (num_traits float `signum` returns
`1.0` at `+0.0`), so at `real = 0` the grad formulas of `asin`, `acos`,
`atan`, `asinh`, `acosh` and `atanh` use the constant `1`, exactly as they
do everywhere else. -/
theorem C6_unit_constant (a : Dual) (h : a.real = 0) :
    |signum a.real| = 1 ∧
    Dual.asin a = ⟨Real.arcsin a.real, a.grad / Real.sqrt (1 - a.real * a.real)⟩ ∧
    Dual.acos a = ⟨Real.arccos a.real, -a.grad / Real.sqrt (1 - a.real * a.real)⟩ ∧
    Dual.atan a = ⟨Real.arctan a.real, a.grad / (1 + a.real * a.real)⟩ ∧
    Dual.asinh a = ⟨Real.arsinh a.real, a.grad / Real.sqrt (1 + a.real * a.real)⟩ ∧
    Dual.acosh a = ⟨Real.arccos a.real, a.grad / Real.sqrt (-1 + a.real * a.real)⟩ ∧
    Dual.atanh a = ⟨artanh a.real, a.grad / (1 - a.real * a.real)⟩ := by
  refine ⟨abs_signum_eq_one a.real, ?_, ?_, ?_, ?_, ?_, ?_⟩ <;>
    simp [Dual.asin, Dual.acos, Dual.atan, Dual.asinh, Dual.acosh, Dual.atanh,
      abs_signum_eq_one]

theorem C6_unit_constant_witness :
    (⟨0, 5⟩ : Dual).real = 0 ∧
    (|signum ((0 : ℝ))| = 1 ∧
     Dual.asin ⟨0, 5⟩ = ⟨Real.arcsin 0, 5 / Real.sqrt (1 - (0 : ℝ) * 0)⟩ ∧
     Dual.acos ⟨0, 5⟩ = ⟨Real.arccos 0, -5 / Real.sqrt (1 - (0 : ℝ) * 0)⟩ ∧
     Dual.atan ⟨0, 5⟩ = ⟨Real.arctan 0, 5 / (1 + (0 : ℝ) * 0)⟩ ∧
     Dual.asinh ⟨0, 5⟩ = ⟨Real.arsinh 0, 5 / Real.sqrt (1 + (0 : ℝ) * 0)⟩ ∧
     Dual.acosh ⟨0, 5⟩ = ⟨Real.arccos 0, 5 / Real.sqrt (-1 + (0 : ℝ) * 0)⟩ ∧
     Dual.atanh ⟨0, 5⟩ = ⟨artanh 0, 5 / (1 - (0 : ℝ) * 0)⟩) :=
  ⟨rfl, C6_unit_constant ⟨0, 5⟩ rfl⟩

/-- C7 counterexample: at the dual `⟨0, 1⟩` the grad part of `abs` is `1`,
not `0`: float `signum` returns `1.0` at `+0.0`, so the grad is
`|1| * signum 0 = 1`. -/
theorem C7_abs_zero_counterexample : (Dual.abs ⟨0, 1⟩).grad ≠ 0 := by
  show |(1 : ℝ)| * signum 0 ≠ 0
  norm_num [signum]

/-- C7 (amended): for every dual `a` with `a.real = 0`, `abs a` returns
`⟨0, |a.grad|⟩`: since float `signum` is `1` at `+0.0`, the grad part is
`|a.grad|`, not `0`. -/
theorem C7_abs_at_zero (a : Dual) (h : a.real = 0) :
    Dual.abs a = ⟨0, |a.grad|⟩ := by
  have hs : signum a.real = 1 := by
    rw [h]
    norm_num [signum]
  unfold Dual.abs
  rw [hs, h]
  exact Dual.ext (by norm_num) (by norm_num)

theorem C7_abs_at_zero_witness :
    (⟨0, -2⟩ : Dual).real = 0 ∧ Dual.abs ⟨0, -2⟩ = ⟨0, |(-2 : ℝ)|⟩ :=
  ⟨rfl, C7_abs_at_zero ⟨0, -2⟩ rfl⟩

end
